import Mathlib

/-!
Shallow embedding of the key-value HTTP service (`service.go`).

The embedding follows the source file: the data model (`Key`, `Value`,
`SetRequest`, `GetRequest`, `GetResponse`, `KeyValueStore`), the
configuration resolution (`useEnvOrDefaultIfNotSet` and the initialization
of the shutdown-timeout flag in `main`), the two store handlers
(`SetHandler`, `GetHandler`), the logging middleware
(`MiddlewareLogRequest`), and an action-trace model of the locking
discipline inside the handlers.

External collaborators (the HTTP transport and the JSON wire machinery)
are embedded at the contract boundary the source uses: a response writer
with the implicit-status semantics of `net/http` (the first body write
fixes status 200 unless `WriteHeader` was called earlier), and a decoder
from parsed JSON values into the fixed request shapes with the semantics
of `encoding/json` struct decoding (absent or null fields keep the zero
value; a field of the wrong kind or a non-object top value is an error).
Parsing raw bytes into a JSON value stays external: handlers receive the
parse result as `Except String Json`.
-/

/-- Mirrors `type Key string` in service.go. -/
abbrev Key := String

/-- Mirrors `type Value string` in service.go. -/
abbrev Value := String

/-- Mirrors `type SetRequest struct { Key Key; Value Value }`. -/
structure SetRequest where
  key : Key
  value : Value
deriving DecidableEq

/-- Mirrors `type GetRequest struct { Key Key }`. -/
structure GetRequest where
  key : Key
deriving DecidableEq

/-- Mirrors `type GetResponse struct { Value Value }`. -/
structure GetResponse where
  value : Value
deriving DecidableEq

/-- Mirrors `type KeyValueStore struct { sync.Mutex; kvMap map[Key]Value }`.
The Go map is embedded extensionally as a partial function from keys to
values; the mutex has no sequential content and is modelled separately by
the action traces below. -/
structure KeyValueStore where
  kvMap : Key → Option Value

/-- The store as constructed in `server()`: `make(map[Key]Value)`. -/
def KeyValueStore.emptyStore : KeyValueStore := ⟨fun _ => none⟩

/-- Go map assignment `kv.kvMap[k] = v` (insert or overwrite). -/
def KeyValueStore.put (kv : KeyValueStore) (k : Key) (v : Value) : KeyValueStore :=
  ⟨fun q => if q = k then some v else kv.kvMap q⟩

/-- Go comma-ok map read `value, ok := kv.kvMap[k]`: the zero value of
`Value` is the empty string when the key is absent. -/
def KeyValueStore.get (kv : KeyValueStore) (k : Key) : Value × Bool :=
  match kv.kvMap k with
  | some v => (v, true)
  | none => ("", false)

/-- A sequence of Put operations applied in order, as issued by successive
requests against the single store instance. -/
def KeyValueStore.putAll (kv : KeyValueStore) (ops : List (Key × Value)) : KeyValueStore :=
  ops.foldl (fun m p => m.put p.1 p.2) kv

/-! ## JSON values and the decode contract of encoding/json -/

/-- Parsed JSON values, the interface the handlers need from the wire
machinery. -/
inductive Json where
  | null
  | boolean (b : Bool)
  | num (n : Int)
  | str (s : String)
  | arr (elems : List Json)
  | obj (fields : List (String × Json))

/-- The JSON kind word used in the error text of encoding/json. -/
def jsonKind : Json → String
  | .null => "null"
  | .boolean _ => "bool"
  | .num _ => "number"
  | .str _ => "string"
  | .arr _ => "array"
  | .obj _ => "object"

/-- Field lookup in a JSON object; on duplicate names the last occurrence
wins, as in encoding/json. -/
def jsonField (fields : List (String × Json)) (name : String) : Option Json :=
  fields.foldl (fun acc p => if p.1 = name then some p.2 else acc) none

/-- Decoding one string-typed Go struct field, per the encoding/json
contract: an absent field or a JSON null keeps the zero value (the empty
string); a JSON string is taken verbatim; any other kind is a decode
error. -/
def decodeStringField (fields : List (String × Json)) (name fieldPath tyName : String) :
    Except String String :=
  match jsonField fields name with
  | none => .ok ""
  | some .null => .ok ""
  | some (.str s) => .ok s
  | some j =>
      .error ("json: cannot unmarshal " ++ jsonKind j ++ " into Go struct field "
        ++ fieldPath ++ " of type " ++ tyName)

/-- Decoding the body of a /set request into `SetRequest`, per the
encoding/json contract for a two-string-field struct: an object supplies
the fields (missing ones keep zero values), a top-level null keeps the
whole zero value, any other top-level kind is a decode error. -/
def decodeSetRequest (j : Json) : Except String SetRequest :=
  match j with
  | .obj fields => do
      let k ← decodeStringField fields "key" "SetRequest.Key" "main.Key"
      let v ← decodeStringField fields "value" "SetRequest.Value" "main.Value"
      .ok ⟨k, v⟩
  | .null => .ok ⟨"", ""⟩
  | other =>
      .error ("json: cannot unmarshal " ++ jsonKind other
        ++ " into Go value of type main.SetRequest")

/-- Decoding the body of a /get request into `GetRequest`, same contract. -/
def decodeGetRequest (j : Json) : Except String GetRequest :=
  match j with
  | .obj fields => do
      let k ← decodeStringField fields "key" "GetRequest.Key" "main.Key"
      .ok ⟨k⟩
  | .null => .ok ⟨""⟩
  | other =>
      .error ("json: cannot unmarshal " ++ jsonKind other
        ++ " into Go value of type main.GetRequest")

/-- Minimal JSON string escaping of the external encoder (quote and
backslash; finer escaping of control and HTML characters is wire-level
detail outside the core per the spec). -/
def jsonEscapeChar (c : Char) : String :=
  if c = '"' then "\\\"" else if c = '\\' then "\\\\" else String.singleton c

/-- JSON string literal for a value. -/
def jsonEncodeString (s : String) : String :=
  "\"" ++ String.join (s.toList.map jsonEscapeChar) ++ "\""

/-- The encoding of `GetResponse\x7bValue: v\x7d` produced by
`json.NewEncoder(w).Encode(response)` before the trailing newline the
encoder adds. -/
def encodeGetResponse (v : Value) : String :=
  "\x7b\"value\":" ++ jsonEncodeString v ++ "\x7d"

/-! ## The response writer contract of net/http -/

/-- State of an `http.ResponseWriter`: the status is unset until the first
`WriteHeader`, and the first body write fixes it at 200 if still unset. -/
structure ResponseWriter where
  statusCode : Option Nat
  respBody : String
  contentType : Option String
deriving DecidableEq

/-- The fresh writer a handler receives for each request. -/
def ResponseWriter.init : ResponseWriter := ⟨none, "", none⟩

/-- Mirrors `w.Header().Set("Content-Type", ct)`. -/
def ResponseWriter.setContentType (w : ResponseWriter) (ct : String) : ResponseWriter :=
  { w with contentType := some ct }

/-- Mirrors `w.WriteHeader(code)`: only the first call takes effect. -/
def ResponseWriter.writeHeader (w : ResponseWriter) (code : Nat) : ResponseWriter :=
  match w.statusCode with
  | none => { w with statusCode := some code }
  | some _ => w

/-- Mirrors `w.Write`: an implicit `WriteHeader(200)` happens on the first
write, then the bytes are appended to the body. -/
def ResponseWriter.write (w : ResponseWriter) (s : String) : ResponseWriter :=
  let w := w.writeHeader 200
  { w with respBody := w.respBody ++ s }

/-- The status the client observes. -/
def ResponseWriter.status (w : ResponseWriter) : Nat :=
  w.statusCode.getD 200

/-- Mirrors `http.Error(w, msg, code)`: sets a plain-text content type,
writes the header with the given code, then writes the message followed by
a newline. -/
def httpError (w : ResponseWriter) (msg : String) (code : Nat) : ResponseWriter :=
  ((w.setContentType "text/plain; charset=utf-8").writeHeader code).write (msg ++ "\n")

/-! ## The handlers -/

/-- Mirrors `(kv *KeyValueStore) SetHandler`: set the content type, decode
the body into a `SetRequest` (the `Except` input is the result of reading
and parsing `r.Body`); on error respond via `http.Error` with the decode
error text and status 400 without touching the store; on success insert
the pair under the mutex and print the integer constant
`http.StatusAccepted` and a newline to the writer (no explicit
`WriteHeader`). Returns the store and writer after the request. -/
def KeyValueStore.setHandler (kv : KeyValueStore) (parsedBody : Except String Json)
    (w : ResponseWriter) : KeyValueStore × ResponseWriter :=
  let w := w.setContentType "text/plain"
  match parsedBody.bind decodeSetRequest with
  | .error e => (kv, httpError w e 400)
  | .ok payload => (kv.put payload.key payload.value, w.write "202\n")

/-- Mirrors `(kv *KeyValueStore) GetHandler`: set the content type, decode
the body into a `GetRequest`; on error respond via `http.Error` with
status 400; on absent key respond via `http.Error` with the fixed message
and status 404; on present key encode the `GetResponse` to the writer
(the encoder appends a newline). The store is never mutated. -/
def KeyValueStore.getHandler (kv : KeyValueStore) (parsedBody : Except String Json)
    (w : ResponseWriter) : KeyValueStore × ResponseWriter :=
  let w := w.setContentType "application/json"
  match parsedBody.bind decodeGetRequest with
  | .error e => (kv, httpError w e 400)
  | .ok payload =>
      let r := kv.get payload.key
      if !r.2 then
        (kv, httpError w "Key not found" 404)
      else
        (kv, w.write (encodeGetResponse r.1 ++ "\n"))

/-! ## Configuration resolution -/

/-- A Go `interface\x7b\x7d` value as it flows through
`useEnvOrDefaultIfNotSet`: nil, a string, a `time.Duration` (int64
nanoseconds), or a bool. -/
inductive GoVal where
  | nil
  | str (s : String)
  | dur (d : Int)
  | boolean (b : Bool)
deriving DecidableEq

/-- Mirrors `useEnvOrDefaultIfNotSet(envValue, defaultValue interface\x7b\x7d)
interface\x7b\x7d`. `none` models a panic: the default branch of the type
switch panics on an unexpected type, and the zero-duration branch performs
the assertion `defaultValue.(time.Duration)`, which panics when the
default is not a duration. -/
def useEnvOrDefaultIfNotSet (envValue defaultValue : GoVal) : Option GoVal :=
  match envValue with
  | .nil => some defaultValue
  | .str v => if v.length = 0 then some defaultValue else some (.str v)
  | .dur v =>
      if v = 0 then
        match defaultValue with
        | .dur d => some (.dur d)
        | _ => none
      else some (.dur v)
  | .boolean _ => none

/-- The Go type assertion `x.(time.Duration)`; `none` models the panic on
any other dynamic type. -/
def goValAsDuration : GoVal → Option Int
  | .dur d => some d
  | _ => none

/-- One second in `time.Duration` units (nanoseconds). -/
def nsPerSecond : Int := 1000000000

/-- The hardcoded default `time.Second * 10` used for the shutdown
timeout. -/
def defaultShutdownTimeout : Int := 10 * nsPerSecond

/-- Mirrors the resolution of the shutdown timeout in `main`:
`flag.Duration("shutdown-timeout", useEnvOrDefaultIfNotSet(os.Getenv("SHUTDOWN_TIMEOUT"), time.Second*10).(time.Duration), ...)`
followed by `flag.Parse()`. `envValue` is the string returned by
`os.Getenv` (the empty string when the variable is unset); `flagValue` is
the parsed command-line override when provided. The flag default is
computed before parsing, so a panic (`none`) in computing it aborts the
run whether or not the flag is given. -/
def resolveShutdownTimeout (flagValue : Option Int) (envValue : String) : Option Int :=
  ((useEnvOrDefaultIfNotSet (.str envValue) (.dur defaultShutdownTimeout)).bind
    goValAsDuration).map (fun d => flagValue.getD d)

/-! ## Action traces and the locking discipline

The sequential state functions above cannot express where the mutex is
held, so the statement sequence of each handler body is also recorded as
a trace of abstract actions, read off the source control flow. -/

/-- Abstract actions of a handler body: mutex acquire and release, a map
access inside the store, reading the request body, writing the response. -/
inductive HAction where
  | lock
  | unlock
  | mapAccess
  | bodyRead
  | respWrite
deriving DecidableEq

/-- Statement sequence of `SetHandler`, by decode outcome. Decoding reads
`r.Body`; the error path writes via `http.Error` and returns without
locking; the success path locks, defers the unlock, writes the map, prints
the acknowledgement to `w`, and only then runs the deferred unlock at
return. -/
def setHandlerActions (decodeOk : Bool) : List HAction :=
  if decodeOk then
    [.bodyRead, .lock, .mapAccess, .respWrite, .unlock]
  else
    [.bodyRead, .respWrite]

/-- Statement sequence of `GetHandler`, by decode outcome and key
presence. Both the not-found `http.Error` and the encoding of the response
happen before the deferred unlock runs. -/
def getHandlerActions (decodeOk found : Bool) : List HAction :=
  if decodeOk then
    if found then
      [.bodyRead, .lock, .mapAccess, .respWrite, .unlock]
    else
      [.bodyRead, .lock, .mapAccess, .respWrite, .unlock]
  else
    [.bodyRead, .respWrite]

/-- Lock depth after one action. -/
def lockDepthStep (d : Nat) : HAction → Nat
  | .lock => d + 1
  | .unlock => d - 1
  | _ => d

/-- Whether some action satisfying `p` occurs at positive lock depth,
starting from depth `d`. -/
def existsWhileHeld (p : HAction → Bool) : Nat → List HAction → Bool
  | _, [] => false
  | d, a :: rest => (decide (0 < d) && p a) || existsWhileHeld p (lockDepthStep d a) rest

/-- Whether every action satisfying `p` occurs at positive lock depth,
starting from depth `d`. -/
def allWhileHeld (p : HAction → Bool) : Nat → List HAction → Bool
  | _, [] => true
  | d, a :: rest => (!p a || decide (0 < d)) && allWhileHeld p (lockDepthStep d a) rest

/-- Lock depth after a whole trace. -/
def finalLockDepth (d : Nat) : List HAction → Nat
  | [] => d
  | a :: rest => finalLockDepth (lockDepthStep d a) rest

def isMapAccess : HAction → Bool
  | .mapAccess => true
  | _ => false

def isBodyRead : HAction → Bool
  | .bodyRead => true
  | _ => false

def isRespWrite : HAction → Bool
  | .respWrite => true
  | _ => false

/-! ## Requests, handlers as functions, and the logging middleware -/

/-- The part of an `http.Request` the middleware and handlers observe:
method, URL path, remote address, the header map (a name with its list of
values), and the parse result of the body. -/
structure Request where
  method : String
  urlPath : String
  remoteAddr : String
  headers : List (String × List String)
  parsedBody : Except String Json

/-- An `http.HandlerFunc` over the embedded state: from the request, the
store, and the response writer to the new store, the final writer, and the
log lines it emits. Log output is write-only; a handler never reads it. -/
def HandlerFn := Request → KeyValueStore → ResponseWriter →
  KeyValueStore × ResponseWriter × List String

/-- The log lines `MiddlewareLogRequest` emits before delegating: the
request line, then one line per header value. Go iterates the header map
in unspecified order; the embedding fixes the list order. -/
def requestLogLines (r : Request) : List String :=
  ("Request: " ++ r.method ++ " " ++ r.urlPath ++ " " ++ r.remoteAddr) ::
    r.headers.flatMap (fun p => p.2.map (fun v => "Header: " ++ p.1 ++ "=" ++ v))

/-- Mirrors `MiddlewareLogRequest(next http.HandlerFunc) http.HandlerFunc`:
log the request line and every header value, then call `next(w, r)` once
with the same writer and request, then return. The emitted log is the
middleware lines followed by whatever `next` logs. -/
def MiddlewareLogRequest (next : HandlerFn) : HandlerFn := fun r kv w =>
  let res := next r kv w
  (res.1, res.2.1, requestLogLines r ++ res.2.2)

/-! ## Claims -/

/-- C3: for all keys k and values v, Put(k, v) on any store state followed
by Get(k) returns (v, true). -/
theorem put_get_roundtrip (kv : KeyValueStore) (k : Key) (v : Value) :
    (kv.put k v).get k = (v, true) := by
  simp [KeyValueStore.put, KeyValueStore.get]

/-- C6: Put(k, v1) then Put(k, v2) then Get(k) returns (v2, true): the
last writer wins. -/
theorem overwrite_last_writer_wins (kv : KeyValueStore) (k : Key) (v1 v2 : Value) :
    ((kv.put k v1).put k v2).get k = (v2, true) := by
  simp [KeyValueStore.put, KeyValueStore.get]

/-- C1 counterexample: on a concretely decodable /set body the handler
responds with HTTP status 200, not the accepted status 202 the claim
states, because `fmt.Fprintln(w, http.StatusAccepted)` writes the body
without ever calling `WriteHeader`, so the implicit 200 applies. -/
theorem setHandler_success_status_not_accepted :
    (KeyValueStore.emptyStore.setHandler
        (.ok (.obj [("key", .str "a"), ("value", .str "1")])) ResponseWriter.init).2.status
      = 200 ∧
    ¬ (KeyValueStore.emptyStore.setHandler
        (.ok (.obj [("key", .str "a"), ("value", .str "1")])) ResponseWriter.init).2.status
      = 202 := by
  constructor
  · rfl
  · decide

/-- C1 amended: for every /set request whose body successfully decodes
into \x7bkey, value\x7d, the handler performs the Put and responds with
HTTP status 200 (the handler never calls WriteHeader, so the first body
write fixes the default success status) and a body equal to the literal
202 status-code text followed by a newline. -/
theorem setHandler_success_response (kv : KeyValueStore) (parsedBody : Except String Json)
    (p : SetRequest) (h : parsedBody.bind decodeSetRequest = .ok p) :
    (kv.setHandler parsedBody ResponseWriter.init).2.status = 200 ∧
    (kv.setHandler parsedBody ResponseWriter.init).2.respBody = "202\n" ∧
    (kv.setHandler parsedBody ResponseWriter.init).1 = kv.put p.key p.value := by
  simp [KeyValueStore.setHandler, h, ResponseWriter.write, ResponseWriter.writeHeader,
    ResponseWriter.setContentType, ResponseWriter.status, ResponseWriter.init]

/-- Witness for the amended C1 theorem at a concrete decodable body. -/
theorem setHandler_success_response_witness :
    ((Except.ok (Json.obj [("key", .str "a"), ("value", .str "1")]) : Except String Json).bind
        decodeSetRequest = .ok ⟨"a", "1"⟩) ∧
    ((KeyValueStore.emptyStore.setHandler
        (.ok (.obj [("key", .str "a"), ("value", .str "1")])) ResponseWriter.init).2.status
      = 200 ∧
    (KeyValueStore.emptyStore.setHandler
        (.ok (.obj [("key", .str "a"), ("value", .str "1")])) ResponseWriter.init).2.respBody
      = "202\n" ∧
    (KeyValueStore.emptyStore.setHandler
        (.ok (.obj [("key", .str "a"), ("value", .str "1")])) ResponseWriter.init).1
      = KeyValueStore.emptyStore.put "a" "1") :=
  ⟨rfl, setHandler_success_response KeyValueStore.emptyStore _ ⟨"a", "1"⟩ rfl⟩

/-- C4: a /set request whose body fails to decode gets a 400 response
whose body is the decode error text (plus the newline `http.Error`
appends), and the store is exactly what it was before. -/
theorem setHandler_decode_failure_isolated (kv : KeyValueStore)
    (parsedBody : Except String Json) (e : String)
    (h : parsedBody.bind decodeSetRequest = .error e) :
    (kv.setHandler parsedBody ResponseWriter.init).1 = kv ∧
    (kv.setHandler parsedBody ResponseWriter.init).2.status = 400 ∧
    (kv.setHandler parsedBody ResponseWriter.init).2.respBody = e ++ "\n" := by
  simp [KeyValueStore.setHandler, h, httpError, ResponseWriter.write,
    ResponseWriter.writeHeader, ResponseWriter.setContentType, ResponseWriter.status,
    ResponseWriter.init]

/-- Witness for C4 at a concrete undecodable body (a parse failure). -/
theorem setHandler_decode_failure_isolated_witness :
    ((Except.error "unexpected EOF" : Except String Json).bind decodeSetRequest
      = .error "unexpected EOF") ∧
    ((KeyValueStore.emptyStore.setHandler (.error "unexpected EOF") ResponseWriter.init).1
      = KeyValueStore.emptyStore ∧
    (KeyValueStore.emptyStore.setHandler (.error "unexpected EOF") ResponseWriter.init).2.status
      = 400 ∧
    (KeyValueStore.emptyStore.setHandler (.error "unexpected EOF") ResponseWriter.init).2.respBody
      = "unexpected EOF" ++ "\n") :=
  ⟨rfl, setHandler_decode_failure_isolated KeyValueStore.emptyStore _ _ rfl⟩

/-- C2: with the shutdown-timeout flag absent or present and
SHUTDOWN_TIMEOUT set to any non-empty string, configuration resolution
does not complete: `useEnvOrDefaultIfNotSet` passes the raw environment
string through, and the `.(time.Duration)` type assertion in `main`
panics, so no timeout is resolved (the claim says the env value is
resolved as the timeout). -/
theorem resolveShutdownTimeout_nonempty_env_diverges (flagValue : Option Int) (s : String)
    (h : s.length ≠ 0) : resolveShutdownTimeout flagValue s = none := by
  simp [resolveShutdownTimeout, useEnvOrDefaultIfNotSet, h, goValAsDuration]

/-- Witness for C2 at the failing input SHUTDOWN_TIMEOUT="5s", flag not
provided. -/
theorem resolveShutdownTimeout_nonempty_env_diverges_witness :
    ("5s".length ≠ 0) ∧ resolveShutdownTimeout none "5s" = none :=
  ⟨by decide, resolveShutdownTimeout_nonempty_env_diverges none "5s" (by decide)⟩

/-- C7: an empty environment string falls through to the default for
string settings, a zero duration falls through to the default for
duration settings, and with no flag override and SHUTDOWN_TIMEOUT unset
(os.Getenv returns the empty string) the resolved shutdown timeout is the
10-second default. -/
theorem config_empty_env_uses_default :
    (∀ d : GoVal, useEnvOrDefaultIfNotSet (.str "") d = some d) ∧
    (∀ d : Int, useEnvOrDefaultIfNotSet (.dur 0) (.dur d) = some (.dur d)) ∧
    resolveShutdownTimeout none "" = some defaultShutdownTimeout := by
  refine ⟨fun d => by simp [useEnvOrDefaultIfNotSet], fun d => rfl, rfl⟩

/-- C8: the logging middleware is transparent: the wrapped handler is
invoked exactly once on the unaltered request, store and writer, the
resulting store and response equal those of invoking the wrapped handler
directly, and the emitted log is the request and header lines followed by
whatever the wrapped handler logs (so logging happens before the
delegation). -/
theorem middleware_transparent (next : HandlerFn) (r : Request) (kv : KeyValueStore)
    (w : ResponseWriter) :
    (MiddlewareLogRequest next r kv w).1 = (next r kv w).1 ∧
    (MiddlewareLogRequest next r kv w).2.1 = (next r kv w).2.1 ∧
    (MiddlewareLogRequest next r kv w).2.2 = requestLogLines r ++ (next r kv w).2.2 :=
  ⟨rfl, rfl, rfl⟩

/-- Helper: a key outside the written keys stays absent from the map
through any sequence of Puts. -/
theorem kvMap_putAll_none (ops : List (Key × Value)) (k : Key)
    (h : k ∉ ops.map Prod.fst) :
    ∀ kv : KeyValueStore, kv.kvMap k = none → (kv.putAll ops).kvMap k = none := by
  induction ops with
  | nil => intro kv h0; simpa [KeyValueStore.putAll] using h0
  | cons p t ih =>
      intro kv h0
      simp only [List.map_cons, List.mem_cons, not_or] at h
      have ht : (kv.put p.1 p.2).kvMap k = none := by
        simp [KeyValueStore.put, h.1, h0]
      simpa [KeyValueStore.putAll] using ih h.2 (kv.put p.1 p.2) ht

/-- C5: a key never written by any Put is absent (Get returns found =
false, with the zero value), and the /get handler responds 404 with the
fixed "Key not found" message when the decoded key is absent, and 200
with the encoded \x7bvalue\x7d body (plus the encoder newline) when it is
present; the store is never mutated on the absent path. -/
theorem getHandler_absent_present_behavior :
    (∀ (ops : List (Key × Value)) (k : Key), k ∉ ops.map Prod.fst →
        (KeyValueStore.emptyStore.putAll ops).get k = ("", false)) ∧
    (∀ (kv : KeyValueStore) (parsedBody : Except String Json) (q : GetRequest),
        parsedBody.bind decodeGetRequest = .ok q → kv.kvMap q.key = none →
        (kv.getHandler parsedBody ResponseWriter.init).2.status = 404 ∧
        (kv.getHandler parsedBody ResponseWriter.init).2.respBody = "Key not found\n" ∧
        (kv.getHandler parsedBody ResponseWriter.init).1 = kv) ∧
    (∀ (kv : KeyValueStore) (parsedBody : Except String Json) (q : GetRequest) (v : Value),
        parsedBody.bind decodeGetRequest = .ok q → kv.kvMap q.key = some v →
        (kv.getHandler parsedBody ResponseWriter.init).2.status = 200 ∧
        (kv.getHandler parsedBody ResponseWriter.init).2.respBody
          = encodeGetResponse v ++ "\n") := by
  refine ⟨?_, ?_, ?_⟩
  · intro ops k h
    have := kvMap_putAll_none ops k h KeyValueStore.emptyStore rfl
    simp [KeyValueStore.get, this]
  · intro kv parsedBody q hd hm
    simp [KeyValueStore.getHandler, hd, KeyValueStore.get, hm, httpError,
      ResponseWriter.write, ResponseWriter.writeHeader, ResponseWriter.setContentType,
      ResponseWriter.status, ResponseWriter.init]
  · intro kv parsedBody q v hd hm
    simp [KeyValueStore.getHandler, hd, KeyValueStore.get, hm, ResponseWriter.write,
      ResponseWriter.writeHeader, ResponseWriter.setContentType, ResponseWriter.status,
      ResponseWriter.init]

/-- Witness for C5: a never-written key on a store built by one Put of a
different key; a /get of an absent key on the empty store; a /get of a
present key. -/
theorem getHandler_absent_present_behavior_witness :
    (("a" : Key) ∉ ([(("b" : Key), ("2" : Value))]).map Prod.fst ∧
      (KeyValueStore.emptyStore.putAll [("b", "2")]).get "a" = ("", false)) ∧
    (((Except.ok (Json.obj [("key", .str "missing")]) : Except String Json).bind
        decodeGetRequest = .ok ⟨"missing"⟩ ∧
      KeyValueStore.emptyStore.kvMap "missing" = none) ∧
      ((KeyValueStore.emptyStore.getHandler
          (.ok (.obj [("key", .str "missing")])) ResponseWriter.init).2.status = 404 ∧
        (KeyValueStore.emptyStore.getHandler
          (.ok (.obj [("key", .str "missing")])) ResponseWriter.init).2.respBody
          = "Key not found\n" ∧
        (KeyValueStore.emptyStore.getHandler
          (.ok (.obj [("key", .str "missing")])) ResponseWriter.init).1
          = KeyValueStore.emptyStore)) ∧
    (((Except.ok (Json.obj [("key", .str "a")]) : Except String Json).bind
        decodeGetRequest = .ok ⟨"a"⟩ ∧
      (KeyValueStore.emptyStore.put "a" "1").kvMap "a" = some "1") ∧
      (((KeyValueStore.emptyStore.put "a" "1").getHandler
          (.ok (.obj [("key", .str "a")])) ResponseWriter.init).2.status = 200 ∧
        ((KeyValueStore.emptyStore.put "a" "1").getHandler
          (.ok (.obj [("key", .str "a")])) ResponseWriter.init).2.respBody
          = encodeGetResponse "1" ++ "\n")) :=
  ⟨⟨by simp, getHandler_absent_present_behavior.1 [("b", "2")] "a" (by simp)⟩,
   ⟨⟨rfl, rfl⟩, getHandler_absent_present_behavior.2.1 KeyValueStore.emptyStore _
      ⟨"missing"⟩ rfl rfl⟩,
   ⟨⟨rfl, rfl⟩, getHandler_absent_present_behavior.2.2 (KeyValueStore.emptyStore.put "a" "1")
      _ ⟨"a"⟩ "1" rfl rfl⟩⟩

/-- C9 counterexample: in the success path of SetHandler the response
write happens at positive lock depth (the acknowledgement is printed
before the deferred Unlock runs), refuting the claim that response writes
happen outside the critical section. -/
theorem respWrite_while_mutex_held :
    ¬ existsWhileHeld isRespWrite 0 (setHandlerActions true) = false := by
  decide

/-- C9 amended: every map access in both handlers happens while the mutex
is held, the request-body read (the decode) always happens outside the
critical section, and every lock acquired is released by the end of the
body; however the response write of every successful decode path — the
/set acknowledgement, the /get not-found error and the /get encoded value
— happens while the mutex is still held, because the Unlock is deferred
to function return. -/
theorem lock_discipline_actual :
    (∀ decodeOk found : Bool,
      allWhileHeld isMapAccess 0 (setHandlerActions decodeOk) = true ∧
      allWhileHeld isMapAccess 0 (getHandlerActions decodeOk found) = true ∧
      existsWhileHeld isBodyRead 0 (setHandlerActions decodeOk) = false ∧
      existsWhileHeld isBodyRead 0 (getHandlerActions decodeOk found) = false ∧
      finalLockDepth 0 (setHandlerActions decodeOk) = 0 ∧
      finalLockDepth 0 (getHandlerActions decodeOk found) = 0) ∧
    existsWhileHeld isRespWrite 0 (setHandlerActions true) = true ∧
    (∀ found : Bool, existsWhileHeld isRespWrite 0 (getHandlerActions true found) = true) := by
  refine ⟨fun decodeOk found => ?_, by decide, fun found => ?_⟩
  · cases decodeOk <;> cases found <;> decide
  · cases found <;> decide

/-- C10: valid JSON object bodies that omit the key and/or value field
decode successfully with the omitted fields defaulting to the empty
string, and setting via the empty object stores an entry the empty-string
key then finds. -/
theorem decode_missing_fields_zero_values :
    (∀ fields : List (String × Json), jsonField fields "key" = none →
        jsonField fields "value" = none →
        decodeSetRequest (.obj fields) = .ok ⟨"", ""⟩) ∧
    (∀ (fields : List (String × Json)) (k : String),
        jsonField fields "key" = some (.str k) → jsonField fields "value" = none →
        decodeSetRequest (.obj fields) = .ok ⟨k, ""⟩) ∧
    (∀ (fields : List (String × Json)) (v : String),
        jsonField fields "key" = none → jsonField fields "value" = some (.str v) →
        decodeSetRequest (.obj fields) = .ok ⟨"", v⟩) ∧
    (∀ kv : KeyValueStore,
        ((kv.setHandler (.ok (.obj [])) ResponseWriter.init).1).get "" = ("", true)) := by
  refine ⟨?_, ?_, ?_, ?_⟩
  · intro fields hk hv
    simp only [decodeSetRequest, decodeStringField, hk, hv]
    rfl
  · intro fields k hk hv
    simp only [decodeSetRequest, decodeStringField, hk, hv]
    rfl
  · intro fields v hk hv
    simp only [decodeSetRequest, decodeStringField, hk, hv]
    rfl
  · intro kv
    rfl

/-- Witness for C10 at the empty object and at objects with exactly one of
the two fields. -/
theorem decode_missing_fields_zero_values_witness :
    ((jsonField [] "key" = none ∧ jsonField [] "value" = none) ∧
      decodeSetRequest (.obj []) = .ok ⟨"", ""⟩) ∧
    ((jsonField [("key", Json.str "a")] "key" = some (.str "a") ∧
        jsonField [("key", Json.str "a")] "value" = none) ∧
      decodeSetRequest (.obj [("key", Json.str "a")]) = .ok ⟨"a", ""⟩) ∧
    ((jsonField [("value", Json.str "w")] "key" = none ∧
        jsonField [("value", Json.str "w")] "value" = some (.str "w")) ∧
      decodeSetRequest (.obj [("value", Json.str "w")]) = .ok ⟨"", "w"⟩) ∧
    ((KeyValueStore.emptyStore.setHandler (.ok (.obj [])) ResponseWriter.init).1.get ""
      = ("", true)) :=
  ⟨⟨⟨rfl, rfl⟩, decode_missing_fields_zero_values.1 [] rfl rfl⟩,
   ⟨⟨rfl, rfl⟩, decode_missing_fields_zero_values.2.1 _ "a" rfl rfl⟩,
   ⟨⟨rfl, rfl⟩, decode_missing_fields_zero_values.2.2.1 _ "w" rfl rfl⟩,
   decode_missing_fields_zero_values.2.2.2 KeyValueStore.emptyStore⟩
